import Mathlib

/-!
# Verification of the innout-burger REST backend and client cart logic

Shallow embedding of the Express/Mongoose server (`src/unnamed/part_000`,
an Express app over three Mongoose collections: MenuItem, Order, Cart)
and of the client-side cart operations (`src/frontend/src/App.js`).

Modelling conventions:
* The document store is a `Store` record holding the three collections as
  lists of documents, in insertion order.
* Mongo `_id`s are `String`s; timestamps (`Date.now()`) are `Nat`s passed
  explicitly to each handler that reads the clock.
* JS numbers used as prices are opaque to every claim here and are
  modelled as `Int`; quantities are `Int` (the client computes
  `Math.max(0, quantity + change)` with a possibly negative `change`).
* A request-body field that may be absent (`undefined`) is an `Option`;
  JS truthiness of a string field is `some s` with `s ≠ ""`.
* Each handler returns `ApiResult β × Store`: the HTTP response and the
  store after the handler ran.
* `findOne` / `findById` scan in insertion order (`List.find?`);
  `findOneAndDelete` / `findByIdAndDelete` remove the first match
  (`List.eraseP`); `findByIdAndUpdate` rewrites the first match.
-/

namespace InnOut

/-- A `{name, price, quantity}` snapshot, the element shape of
`orderSchema.items` and `cartSchema.items` and of the client cart. -/
structure LineItem where
  name : String
  price : Int
  quantity : Int
deriving Repr, DecidableEq

/-- The `customerInfo` sub-document of `orderSchema`: all sub-fields optional. -/
structure CustomerInfo where
  name : Option String := none
  email : Option String := none
  phone : Option String := none
deriving Repr, DecidableEq

/-- A document of the MenuItem collection (`menuItemSchema`). -/
structure MenuItem where
  id : String
  name : String
  description : String
  price : Int
  category : String := "main"
  available : Bool := true
  imageUrl : Option String := none
  createdAt : Nat
deriving Repr, DecidableEq

/-- A document of the Order collection (`orderSchema`). -/
structure Order where
  id : String
  items : List LineItem
  totalPrice : Int
  customerInfo : CustomerInfo
  status : String
  orderDate : Nat
  notes : Option String := none
deriving Repr, DecidableEq

/-- A document of the Cart collection (`cartSchema`). -/
structure Cart where
  sessionId : String
  items : List LineItem
  lastUpdated : Nat
deriving Repr, DecidableEq

/-- The document store: the three collections, each in insertion order. -/
structure Store where
  menu : List MenuItem
  orders : List Order
  carts : List Cart
deriving Repr, DecidableEq

/-- Outcome a handler maps to the HTTP layer: `res.status(n).json(body)`
on the happy path, or `res.status(n).json({error})` on the error path. -/
inductive ApiResult (β : Type) where
  | success (status : Nat) (body : β)
  | failure (status : Nat) (error : String)
deriving Repr, DecidableEq

/-- The `enum` list of `orderSchema.status`, also the `validStatuses`
array of the PATCH handler. -/
def validStatuses : List String :=
  ["pending", "confirmed", "preparing", "ready", "delivered", "cancelled"]

/-! ## Menu handlers -/

/-- Handler for `GET /api/menu`: `MenuItem.find({ available: true })`. -/
def getMenu (s : Store) : ApiResult (List MenuItem) × Store :=
  (.success 200 (s.menu.filter (fun m => m.available)), s)

/-- Handler for `DELETE /api/menu/:id`: `findByIdAndDelete`, 404 when nothing matched. -/
def deleteMenuItem (id : String) (s : Store) : ApiResult String × Store :=
  match s.menu.find? (fun m => m.id == id) with
  | none => (.failure 404 "Menu item not found", s)
  | some _ =>
      (.success 200 "Menu item deleted successfully",
        { s with menu := s.menu.eraseP (fun m => m.id == id) })

/-! ## Cart handlers -/

/-- Handler for `GET /api/cart/:sessionId`: `findOne`; when absent, save a fresh cart
with `items: []` (its `lastUpdated` takes the schema default `Date.now`)
and return it. -/
def getCart (sid : String) (now : Nat) (s : Store) : ApiResult Cart × Store :=
  match s.carts.find? (fun c => c.sessionId == sid) with
  | some cart => (.success 200 cart, s)
  | none =>
      let cart : Cart := { sessionId := sid, items := [], lastUpdated := now }
      (.success 200 cart, { s with carts := s.carts ++ [cart] })

/-- Saving a found document writes it back in place: replace the first
cart whose `sessionId` matches with `cart'`. -/
def saveCartFirst (carts : List Cart) (sid : String) (cart' : Cart) : List Cart :=
  match carts with
  | [] => []
  | c :: rest =>
      if c.sessionId == sid then cart' :: rest
      else c :: saveCartFirst rest sid cart'

/-- Handler for `POST /api/cart/:sessionId`: `findOne`; when absent, save a new cart
holding `req.body.items` (schema default `lastUpdated = Date.now`);
otherwise overwrite `cart.items` and `cart.lastUpdated` and save. -/
def postCart (sid : String) (items : List LineItem) (now : Nat) (s : Store) :
    ApiResult Cart × Store :=
  match s.carts.find? (fun c => c.sessionId == sid) with
  | none =>
      let cart : Cart := { sessionId := sid, items := items, lastUpdated := now }
      (.success 200 cart, { s with carts := s.carts ++ [cart] })
  | some cart =>
      let cart' : Cart := { cart with items := items, lastUpdated := now }
      (.success 200 cart', { s with carts := saveCartFirst s.carts sid cart' })

/-- Handler for `DELETE /api/cart/:sessionId`: `findOneAndDelete` (no error when the
cart is absent), then the fixed confirmation message. -/
def deleteCart (sid : String) (s : Store) : ApiResult String × Store :=
  (.success 200 "Cart cleared successfully",
    { s with carts := s.carts.eraseP (fun c => c.sessionId == sid) })

/-! ## Order handlers -/

/-- Relation "newer or equally new": `b.orderDate ≤ a.orderDate`, the
descending order of `sort({ orderDate: -1 })`. -/
def newerLE (a b : Order) : Prop := b.orderDate ≤ a.orderDate

instance : DecidableRel newerLE := fun a b => Nat.decLe b.orderDate a.orderDate

instance : IsTotal Order newerLE := ⟨fun a b => Nat.le_total b.orderDate a.orderDate⟩

instance : IsTrans Order newerLE := ⟨fun _ _ _ h1 h2 => Nat.le_trans h2 h1⟩

/-- Handler for `GET /api/orders`: `Order.find().sort({ orderDate: -1 })`. -/
def listOrders (s : Store) : ApiResult (List Order) × Store :=
  (.success 200 (s.orders.insertionSort newerLE), s)

/-- Request body of `POST /api/orders`; the handler destructures exactly
`{ items, totalPrice, customerInfo, notes, sessionId }`, so a `status`
supplied by the caller is carried here but never read. -/
structure OrderRequest where
  items : Option (List LineItem)
  totalPrice : Int
  customerInfo : CustomerInfo
  notes : Option String := none
  sessionId : Option String := none
  status : Option String := none
deriving Repr, DecidableEq

/-- Handler for `POST /api/orders`: reject when `!items || items.length === 0`;
otherwise save a new order with `status: 'pending'`, then — when
`sessionId` is truthy (present and nonempty) — `Cart.findOneAndDelete({
sessionId })`, and answer 201 with the new order. -/
def createOrder (req : OrderRequest) (newId : String) (now : Nat) (s : Store) :
    ApiResult Order × Store :=
  match req.items with
  | none => (.failure 400 "Order must contain at least one item", s)
  | some items =>
      if items.isEmpty then
        (.failure 400 "Order must contain at least one item", s)
      else
        let newOrder : Order :=
          { id := newId, items := items, totalPrice := req.totalPrice,
            customerInfo := req.customerInfo, status := "pending",
            orderDate := now, notes := req.notes }
        let s1 : Store := { s with orders := s.orders ++ [newOrder] }
        let s2 : Store :=
          match req.sessionId with
          | some sid =>
              if sid = "" then s1
              else { s1 with carts := s1.carts.eraseP (fun c => c.sessionId == sid) }
          | none => s1
        (.success 201 newOrder, s2)

/-- Rewrite the status of the first order whose `_id` matches
(`findByIdAndUpdate(id, { status })`). -/
def setStatusFirst (orders : List Order) (id stv : String) : List Order :=
  match orders with
  | [] => []
  | o :: rest =>
      if o.id == id then { o with status := stv } :: rest
      else o :: setStatusFirst rest id stv

/-- Handler for `PATCH /api/orders/:id/status`: 400 unless the supplied status is in
`validStatuses` (a missing status field fails the `includes` test the same
way); then `findByIdAndUpdate`, 404 when no order matches, otherwise the
status is overwritten and the updated order returned. -/
def patchOrderStatus (id : String) (st : Option String) (s : Store) :
    ApiResult Order × Store :=
  match st with
  | none => (.failure 400 "Invalid status", s)
  | some stv =>
      if validStatuses.contains stv then
        match s.orders.find? (fun o => o.id == id) with
        | none => (.failure 404 "Order not found", s)
        | some o =>
            (.success 200 { o with status := stv },
              { s with orders := setStatusFirst s.orders id stv })
      else (.failure 400 "Invalid status", s)

/-- Handler for `DELETE /api/orders/:id`: `findByIdAndDelete`, 404 when nothing
matched. -/
def deleteOrder (id : String) (s : Store) : ApiResult String × Store :=
  match s.orders.find? (fun o => o.id == id) with
  | none => (.failure 404 "Order not found", s)
  | some _ =>
      (.success 200 "Order deleted successfully",
        { s with orders := s.orders.eraseP (fun o => o.id == id) })

/-! ## Client-side cart operations (`src/frontend/src/App.js`) -/

/-- Client `addToCart(item)`: when an entry with the same name exists, bump its
quantity by one via `map`; otherwise append `{name, price, quantity: 1}`. -/
def addToCart (cart : List LineItem) (name : String) (price : Int) :
    List LineItem :=
  if cart.any (fun ci => ci.name == name) then
    cart.map (fun ci =>
      if ci.name == name then { ci with quantity := ci.quantity + 1 } else ci)
  else cart ++ [{ name := name, price := price, quantity := 1 }]

/-- Client `updateQuantity(name, change)`: clamp the new quantity at 0 with
`Math.max`, then `filter(item => item.quantity > 0)`. -/
def updateQuantity (cart : List LineItem) (name : String) (change : Int) :
    List LineItem :=
  (cart.map (fun it =>
      if it.name == name then { it with quantity := max 0 (it.quantity + change) }
      else it)).filter
    (fun it => decide (0 < it.quantity))

/-- Client `removeFromCart(name)`: `filter(item => item.name !== name)`. -/
def removeFromCart (cart : List LineItem) (name : String) : List LineItem :=
  cart.filter (fun it => it.name != name)

/-! ## Theorems -/

/-- C7: Every menu-list request (`GET /api/menu`) answers 200 with a
body holding exactly the MenuItem documents whose `available` field is
`true` — never an item with `available = false` — and leaves the store
unchanged. -/
theorem getMenu_exactly_available (s : Store) :
    ∃ body : List MenuItem, (getMenu s).1 = ApiResult.success 200 body ∧
      (∀ m : MenuItem, m ∈ body ↔ m ∈ s.menu ∧ m.available = true) ∧
      (getMenu s).2 = s := by
  refine ⟨s.menu.filter (fun m => m.available), rfl, ?_, rfl⟩
  intro m
  simp [List.mem_filter]

/-- C9: Every order-list request (`GET /api/orders`) answers 200 with
a body that is a permutation of all Order documents in the store, sorted
by `orderDate` descending (newest first), and leaves the store
unchanged. -/
theorem listOrders_all_sorted_desc (s : Store) :
    ∃ body : List Order, (listOrders s).1 = ApiResult.success 200 body ∧
      body.Perm s.orders ∧
      body.Sorted (fun a b => b.orderDate ≤ a.orderDate) ∧
      (listOrders s).2 = s := by
  refine ⟨s.orders.insertionSort newerLE, rfl, ?_, ?_, rfl⟩
  · exact List.perm_insertionSort newerLE s.orders
  · exact List.sorted_insertionSort newerLE s.orders

/-- C2: Every order-create request (`POST /api/orders`) whose body is
missing the `items` field or carries an empty `items` list answers 400
and leaves the store — in particular the Orders collection — unchanged. -/
theorem createOrder_rejects_empty (req : OrderRequest) (newId : String)
    (now : Nat) (s : Store) (h : req.items = none ∨ req.items = some []) :
    createOrder req newId now s =
      (ApiResult.failure 400 "Order must contain at least one item", s) := by
  rcases h with h | h <;> simp [createOrder, h]

/-- Witness for C2 at a concrete request with `items` absent. -/
theorem createOrder_rejects_empty_witness :
    createOrder { items := none, totalPrice := 0, customerInfo := {} } "o1" 0
        ⟨[], [], []⟩ =
      (ApiResult.failure 400 "Order must contain at least one item", ⟨[], [], []⟩) :=
  createOrder_rejects_empty _ "o1" 0 ⟨[], [], []⟩ (Or.inl rfl)

/-- C8: Deleting a MenuItem (`DELETE /api/menu/:id`) or an Order
(`DELETE /api/orders/:id`) whose identifier matches no document answers
404 and leaves the store unchanged, while deleting a Cart
(`DELETE /api/cart/:sessionId`) answers the fixed confirmation
`"Cart cleared successfully"` for every store, so a missing Cart gets
the same success response as an existing one (idempotent). -/
theorem delete_notFound_vs_idempotent (id sid : String) (s : Store) :
    (s.menu.find? (fun m => m.id == id) = none →
      deleteMenuItem id s = (ApiResult.failure 404 "Menu item not found", s)) ∧
    (s.orders.find? (fun o => o.id == id) = none →
      deleteOrder id s = (ApiResult.failure 404 "Order not found", s)) ∧
    (deleteCart sid s).1 = ApiResult.success 200 "Cart cleared successfully" := by
  refine ⟨fun h => ?_, fun h => ?_, rfl⟩
  · simp [deleteMenuItem, h]
  · simp [deleteOrder, h]

/-- Witness for C8 on the empty store, where no identifier matches. -/
theorem delete_notFound_vs_idempotent_witness :
    (deleteMenuItem "m1" ⟨[], [], []⟩ =
      (ApiResult.failure 404 "Menu item not found", ⟨[], [], []⟩)) ∧
    (deleteOrder "o1" ⟨[], [], []⟩ =
      (ApiResult.failure 404 "Order not found", ⟨[], [], []⟩)) ∧
    (deleteCart "s1" ⟨[], [], []⟩).1 =
      ApiResult.success 200 "Cart cleared successfully" :=
  ⟨(delete_notFound_vs_idempotent "m1" "s1" ⟨[], [], []⟩).1 rfl,
   (delete_notFound_vs_idempotent "o1" "s1" ⟨[], [], []⟩).2.1 rfl,
   (delete_notFound_vs_idempotent "m1" "s1" ⟨[], [], []⟩).2.2⟩

/-- C4: Every order-create request (`POST /api/orders`) that succeeds
(its `items` list is present and nonempty) persists exactly one new Order,
appended to the Orders collection, whose `status` is `"pending"` — the
request's own `status` field (`req.status`) is never read, so the forced
value is independent of whatever the caller supplied. -/
theorem createOrder_forces_pending (req : OrderRequest) (newId : String)
    (now : Nat) (s : Store) (l : List LineItem)
    (hitems : req.items = some l) (hne : l ≠ []) :
    ∃ o : Order, (createOrder req newId now s).1 = ApiResult.success 201 o ∧
      (createOrder req newId now s).2.orders = s.orders ++ [o] ∧
      o.status = "pending" := by
  cases l with
  | nil => exact absurd rfl hne
  | cons a as =>
      refine ⟨{ id := newId, items := a :: as, totalPrice := req.totalPrice,
                customerInfo := req.customerInfo, status := "pending",
                orderDate := now, notes := req.notes }, ?_, ?_, rfl⟩
      · simp only [createOrder, hitems, List.isEmpty_cons, Bool.false_eq_true,
          if_false]
      · simp only [createOrder, hitems, List.isEmpty_cons, Bool.false_eq_true,
          if_false]
        cases hs : req.sessionId with
        | none => rfl
        | some sid =>
            by_cases hsid : sid = "" <;> simp [hsid]

/-- Witness for C4: a request that supplies `status := some "delivered"`
still yields a persisted order with status `"pending"`. -/
theorem createOrder_forces_pending_witness :
    ∃ o : Order,
      (createOrder
          { items := some [⟨"Fries", 249, 2⟩], totalPrice := 498,
            customerInfo := {}, status := some "delivered" } "o1" 7
          ⟨[], [], []⟩).1 = ApiResult.success 201 o ∧
      (createOrder
          { items := some [⟨"Fries", 249, 2⟩], totalPrice := 498,
            customerInfo := {}, status := some "delivered" } "o1" 7
          ⟨[], [], []⟩).2.orders = ([] : List Order) ++ [o] ∧
      o.status = "pending" :=
  createOrder_forces_pending _ "o1" 7 ⟨[], [], []⟩ [⟨"Fries", 249, 2⟩] rfl
    (by decide)

/-- Membership in `eraseP` keyed by an injective-on-the-list key: when the
keys of `l` are pairwise distinct, erasing the first element with key `k`
leaves exactly the elements whose key differs from `k`. -/
theorem mem_eraseP_key {α κ : Type} [BEq κ] [LawfulBEq κ] (key : α → κ)
    (k : κ) (l : List α) (hu : l.Pairwise (fun a b => key a ≠ key b)) (c : α) :
    c ∈ l.eraseP (fun x => key x == k) ↔ (c ∈ l ∧ key c ≠ k) := by
  induction l with
  | nil => simp
  | cons x rest ih =>
      rw [List.pairwise_cons] at hu
      obtain ⟨hx, hrest⟩ := hu
      by_cases hk : key x = k
      · rw [List.eraseP_cons_of_pos (by simp [hk])]
        constructor
        · intro hc
          refine ⟨List.mem_cons_of_mem _ hc, fun hck => (hx c hc) ?_⟩
          rw [hk, hck]
        · rintro ⟨hc, hck⟩
          rcases List.mem_cons.mp hc with rfl | hc
          · exact absurd hk hck
          · exact hc
      · rw [List.eraseP_cons_of_neg (by simp [hk])]
        simp only [List.mem_cons]
        rw [ih hrest]
        constructor
        · rintro (rfl | ⟨hc, hck⟩)
          · exact ⟨Or.inl rfl, hk⟩
          · exact ⟨Or.inr hc, hck⟩
        · rintro ⟨rfl | hc, hck⟩
          · exact Or.inl rfl
          · exact Or.inr ⟨hc, hck⟩

/-- C1: For a successful order-create request (`POST /api/orders`,
`items` present and nonempty): with a (nonempty) `sessionId` and pairwise
distinct cart session ids, the resulting Cart collection holds exactly
the previous carts whose `sessionId` differs from the supplied one — the
matching Cart is deleted, no other Cart is created, modified or deleted;
with no `sessionId`, the Cart collection is untouched; and the HTTP
response does not depend on the Cart collection at all, so the outcome of
the secondary cart deletion (a matching cart existed or not) is
indistinguishable in the response. -/
theorem createOrder_cart_frame (req : OrderRequest) (newId : String)
    (now : Nat) (s : Store) (l : List LineItem)
    (hitems : req.items = some l) (hne : l ≠ []) :
    (∀ sid, req.sessionId = some sid → sid ≠ "" →
        s.carts.Pairwise (fun a b => a.sessionId ≠ b.sessionId) →
        ∀ c : Cart, c ∈ (createOrder req newId now s).2.carts ↔
          (c ∈ s.carts ∧ c.sessionId ≠ sid)) ∧
    (req.sessionId = none → (createOrder req newId now s).2.carts = s.carts) ∧
    (∀ carts' : List Cart,
        (createOrder req newId now { s with carts := carts' }).1 =
          (createOrder req newId now s).1) := by
  cases l with
  | nil => exact absurd rfl hne
  | cons a as =>
      refine ⟨?_, ?_, ?_⟩
      · intro sid hsid hne' hu c
        simp only [createOrder, hitems, List.isEmpty_cons, Bool.false_eq_true,
          if_false, hsid]
        rw [if_neg hne']
        exact mem_eraseP_key Cart.sessionId sid s.carts hu c
      · intro hsid
        simp only [createOrder, hitems, List.isEmpty_cons, Bool.false_eq_true,
          if_false, hsid]
      · intro carts'
        simp only [createOrder, hitems, List.isEmpty_cons, Bool.false_eq_true,
          if_false]

/-- Witness for C1: placing an order for session `"s1"` against a store
holding carts for `"s1"` and `"s2"`; cart membership afterwards is
exactly "was there and is not session s1". -/
theorem createOrder_cart_frame_witness :
    ((⟨"s2", [], 11⟩ : Cart) ∈
        (createOrder
            { items := some [⟨"Burger", 599, 1⟩], totalPrice := 599,
              customerInfo := {}, sessionId := some "s1" } "o1" 42
            ⟨[], [], [⟨"s1", [⟨"Burger", 599, 1⟩], 10⟩, ⟨"s2", [], 11⟩]⟩).2.carts ↔
      ((⟨"s2", [], 11⟩ : Cart) ∈
          [(⟨"s1", [⟨"Burger", 599, 1⟩], 10⟩ : Cart), ⟨"s2", [], 11⟩] ∧
        ("s2" : String) ≠ "s1")) :=
  (createOrder_cart_frame _ "o1" 42
      ⟨[], [], [⟨"s1", [⟨"Burger", 599, 1⟩], 10⟩, ⟨"s2", [], 11⟩]⟩
      [⟨"Burger", 599, 1⟩] rfl (by decide)).1 "s1" rfl (by decide)
    (by decide) ⟨"s2", [], 11⟩

theorem length_setStatusFirst (orders : List Order) (id stv : String) :
    (setStatusFirst orders id stv).length = orders.length := by
  induction orders with
  | nil => rfl
  | cons o rest ih =>
      simp only [setStatusFirst]
      by_cases h : (o.id == id) = true
      · rw [if_pos h]; rfl
      · rw [if_neg h]; simp [ih]

theorem mem_setStatusFirst_ne (orders : List Order) (id stv : String)
    (o' : Order) (h : o' ∈ setStatusFirst orders id stv) (hne : o'.id ≠ id) :
    o' ∈ orders := by
  induction orders with
  | nil => simp [setStatusFirst] at h
  | cons o rest ih =>
      simp only [setStatusFirst] at h
      by_cases hid : o.id = id
      · rw [if_pos (by simp [hid])] at h
        rcases List.mem_cons.mp h with rfl | h
        · exact absurd hid hne
        · exact List.mem_cons_of_mem _ h
      · rw [if_neg (by simp [hid])] at h
        rcases List.mem_cons.mp h with rfl | h
        · exact List.mem_cons_self _ _
        · exact List.mem_cons_of_mem _ (ih h)

theorem status_setStatusFirst (orders : List Order) (id stv : String)
    (hu : orders.Pairwise (fun a b => a.id ≠ b.id)) (o' : Order)
    (h : o' ∈ setStatusFirst orders id stv) (hid' : o'.id = id) :
    o'.status = stv := by
  induction orders with
  | nil => simp [setStatusFirst] at h
  | cons o rest ih =>
      rw [List.pairwise_cons] at hu
      obtain ⟨ho, hrest⟩ := hu
      simp only [setStatusFirst] at h
      by_cases hid : o.id = id
      · rw [if_pos (by simp [hid])] at h
        rcases List.mem_cons.mp h with rfl | h
        · rfl
        · exact absurd (hid ▸ hid'.symm) (ho o' h)
      · rw [if_neg (by simp [hid])] at h
        rcases List.mem_cons.mp h with rfl | h
        · exact absurd hid' hid
        · exact ih hrest h

/-- C3: for `PATCH /api/orders/:id/status`, a status outside
`{pending, confirmed, preparing, ready, delivered, cancelled}` (or a
missing one) answers 400 and leaves the store — in particular every
stored order's status — unchanged; a valid status with no matching order
answers 404 and leaves the store unchanged; a valid status with a
matching order answers 200 with the updated order and overwrites that
order's stored status with the supplied value unconditionally (whatever
the previous status was), touching no other order and keeping the
collection's size. -/
theorem patchOrderStatus_cases (id : String) (st : Option String) (s : Store) :
    (st = none →
      patchOrderStatus id st s = (ApiResult.failure 400 "Invalid status", s)) ∧
    (∀ stv, st = some stv → validStatuses.contains stv = false →
      patchOrderStatus id st s = (ApiResult.failure 400 "Invalid status", s)) ∧
    (∀ stv, st = some stv → validStatuses.contains stv = true →
      s.orders.find? (fun o => o.id == id) = none →
      patchOrderStatus id st s = (ApiResult.failure 404 "Order not found", s)) ∧
    (∀ stv o, st = some stv → validStatuses.contains stv = true →
      s.orders.find? (fun o => o.id == id) = some o →
      s.orders.Pairwise (fun a b => a.id ≠ b.id) →
      (patchOrderStatus id st s).1 =
        ApiResult.success 200 { o with status := stv } ∧
      (patchOrderStatus id st s).2.orders.length = s.orders.length ∧
      (∀ o' ∈ (patchOrderStatus id st s).2.orders, o'.id ≠ id → o' ∈ s.orders) ∧
      (∀ o' ∈ (patchOrderStatus id st s).2.orders, o'.id = id →
        o'.status = stv)) := by
  refine ⟨?_, ?_, ?_, ?_⟩
  · rintro rfl; rfl
  · rintro stv rfl hcon
    simp only [patchOrderStatus]
    rw [if_neg (by rw [hcon]; exact Bool.false_ne_true)]
  · rintro stv rfl hcon hfind
    simp only [patchOrderStatus]
    rw [if_pos hcon, hfind]
  · rintro stv o rfl hcon hfind hu
    have hpatch : patchOrderStatus id (some stv) s =
        (ApiResult.success 200 { o with status := stv },
          { s with orders := setStatusFirst s.orders id stv }) := by
      simp only [patchOrderStatus]
      rw [if_pos hcon, hfind]
    rw [hpatch]
    exact ⟨rfl, length_setStatusFirst s.orders id stv,
      fun o' ho' hne => mem_setStatusFirst_ne s.orders id stv o' ho' hne,
      fun o' ho' hid => status_setStatusFirst s.orders id stv hu o' ho' hid⟩

/-- Witness for C3 (valid-status branch): patching the only stored order
from `"pending"` to `"ready"`. -/
theorem patchOrderStatus_cases_witness :
    (patchOrderStatus "o1" (some "ready")
        ⟨[], [⟨"o1", [⟨"Fries", 249, 1⟩], 249, {}, "pending", 3, none⟩], []⟩).1 =
      ApiResult.success 200
        ⟨"o1", [⟨"Fries", 249, 1⟩], 249, {}, "ready", 3, none⟩ :=
  ((patchOrderStatus_cases "o1" (some "ready")
        ⟨[], [⟨"o1", [⟨"Fries", 249, 1⟩], 249, {}, "pending", 3, none⟩], []⟩).2.2.2
      "ready" ⟨"o1", [⟨"Fries", 249, 1⟩], 249, {}, "pending", 3, none⟩ rfl
      (by decide) (by decide) (by decide)).1

theorem find?_saveCartFirst (l : List Cart) (sid : String) (c' : Cart)
    (hc' : c'.sessionId = sid) (c : Cart)
    (h : l.find? (fun x => x.sessionId == sid) = some c) :
    (saveCartFirst l sid c').find? (fun x => x.sessionId == sid) = some c' := by
  induction l with
  | nil => simp at h
  | cons x rest ih =>
      by_cases hx : x.sessionId = sid
      · simp only [saveCartFirst, if_pos (by simp [hx] : (x.sessionId == sid) = true)]
        exact List.find?_cons_of_pos _ (by simp [hc'])
      · simp only [saveCartFirst, if_neg (by simp [hx] : ¬(x.sessionId == sid) = true)]
        rw [List.find?_cons_of_neg _ (by simp [hx])]
        rw [List.find?_cons_of_neg _ (by simp [hx])] at h
        exact ih h

/-- C5: Every cart-upsert request (`POST /api/cart/:sessionId`)
answers 200 with a cart holding exactly the supplied items list and a
refreshed `lastUpdated`; afterwards the stored Cart for that session
(looked up in insertion order) is exactly that record, whatever the
previous contents were — never a merge; and when no Cart existed the new
one is created (appended). -/
theorem postCart_replaces_wholesale (sid : String) (items : List LineItem)
    (now : Nat) (s : Store) :
    (postCart sid items now s).1 =
      ApiResult.success 200 ⟨sid, items, now⟩ ∧
    (postCart sid items now s).2.carts.find? (fun c => c.sessionId == sid) =
      some ⟨sid, items, now⟩ ∧
    (s.carts.find? (fun c => c.sessionId == sid) = none →
      (postCart sid items now s).2.carts = s.carts ++ [⟨sid, items, now⟩]) := by
  cases hf : s.carts.find? (fun c => c.sessionId == sid) with
  | none =>
      refine ⟨?_, ?_, fun _ => ?_⟩ <;> simp only [postCart, hf]
      rw [List.find?_append, hf]
      simp
  | some cart =>
      have hsid : cart.sessionId = sid := by simpa using List.find?_some hf
      have hcart' : ({ cart with items := items, lastUpdated := now } : Cart) =
          ⟨sid, items, now⟩ := by rw [← hsid]
      refine ⟨?_, ?_, fun h => ?_⟩
      · simp only [postCart, hf]
        rw [hcart']
      · simp only [postCart, hf]
        rw [hcart']
        exact find?_saveCartFirst s.carts sid ⟨sid, items, now⟩ rfl cart hf
      · exact Option.noConfusion h

/-- Witness for C5: posting an empty items list over a non-empty cart for
`"s1"` leaves an empty stored cart for `"s1"`. -/
theorem postCart_replaces_wholesale_witness :
    (postCart "s1" [] 9 ⟨[], [], [⟨"s1", [⟨"Burger", 599, 2⟩], 4⟩]⟩).1 =
      ApiResult.success 200 ⟨"s1", [], 9⟩ ∧
    (postCart "s1" [] 9
        ⟨[], [], [⟨"s1", [⟨"Burger", 599, 2⟩], 4⟩]⟩).2.carts.find?
        (fun c => c.sessionId == "s1") = some ⟨"s1", [], 9⟩ ∧
    (([(⟨"s1", [⟨"Burger", 599, 2⟩], 4⟩ : Cart)].find?
        (fun c => c.sessionId == "s1") = none) →
      (postCart "s1" [] 9
          ⟨[], [], [⟨"s1", [⟨"Burger", 599, 2⟩], 4⟩]⟩).2.carts =
        [⟨"s1", [⟨"Burger", 599, 2⟩], 4⟩] ++ [⟨"s1", [], 9⟩]) :=
  postCart_replaces_wholesale "s1" [] 9
    ⟨[], [], [⟨"s1", [⟨"Burger", 599, 2⟩], 4⟩]⟩

/-- C6: A cart-get request (`GET /api/cart/:sessionId`) for a session
with no stored Cart persists a new Cart with an empty items list as a
side effect of the read (appended to the collection), answers 200 with
it, and a repeated get for the same session id returns that same Cart's
contents while leaving the store exactly as it was (idempotent: no second
document is created). -/
theorem getCart_lazy_create (sid : String) (now now' : Nat) (s : Store)
    (habs : s.carts.find? (fun c => c.sessionId == sid) = none) :
    (getCart sid now s).1 = ApiResult.success 200 ⟨sid, [], now⟩ ∧
    (getCart sid now s).2.carts = s.carts ++ [⟨sid, [], now⟩] ∧
    getCart sid now' (getCart sid now s).2 =
      (ApiResult.success 200 ⟨sid, [], now⟩, (getCart sid now s).2) := by
  have hfound :
      ((s.carts ++ [⟨sid, [], now⟩] : List Cart).find?
        (fun c => c.sessionId == sid)) = some ⟨sid, [], now⟩ := by
    rw [List.find?_append, habs]
    simp
  have h1 : getCart sid now s =
      (ApiResult.success 200 ⟨sid, [], now⟩,
        { s with carts := s.carts ++ [⟨sid, [], now⟩] }) := by
    simp only [getCart, habs]
  rw [h1]
  refine ⟨rfl, rfl, ?_⟩
  simp only [getCart, hfound]

/-- Witness for C6: first get for session `"s9"` on the empty store. -/
theorem getCart_lazy_create_witness :
    (getCart "s9" 5 ⟨[], [], []⟩).1 = ApiResult.success 200 ⟨"s9", [], 5⟩ ∧
    (getCart "s9" 5 ⟨[], [], []⟩).2.carts = [] ++ [⟨"s9", [], 5⟩] ∧
    getCart "s9" 8 (getCart "s9" 5 ⟨[], [], []⟩).2 =
      (ApiResult.success 200 ⟨"s9", [], 5⟩, (getCart "s9" 5 ⟨[], [], []⟩).2) :=
  getCart_lazy_create "s9" 5 8 ⟨[], [], []⟩ rfl

theorem find?_map_bump (cart : List LineItem) (name : String) (a : LineItem)
    (h : cart.find? (fun ci => ci.name == name) = some a) :
    (cart.map (fun ci =>
        if ci.name == name then { ci with quantity := ci.quantity + 1 }
        else ci)).find? (fun ci => ci.name == name) =
      some { a with quantity := a.quantity + 1 } := by
  induction cart with
  | nil => simp at h
  | cons c rest ih =>
      by_cases hc : c.name = name
      · rw [List.find?_cons_of_pos _ (by simp [hc])] at h
        injection h with h
        subst h
        simp only [List.map_cons, if_pos (by simp [hc] : (c.name == name) = true)]
        exact List.find?_cons_of_pos _ (by simp [hc])
      · rw [List.find?_cons_of_neg _ (by simp [hc])] at h
        simp only [List.map_cons, if_neg (by simp [hc] : ¬(c.name == name) = true)]
        rw [List.find?_cons_of_neg _ (by simp [hc])]
        exact ih h

/-- C10: The client cart operations preserve the invariant that every
entry has quantity at least 1: `addToCart`, `updateQuantity` and
`removeFromCart` all map a cart satisfying it to a cart satisfying it
(`updateQuantity` filters out any entry whose clamped quantity is not
positive instead of keeping it); and `addToCart` on a name already in the
cart keeps the length (no duplicate entry is appended) and increments
that entry's quantity by 1. -/
theorem clientCart_ops (cart : List LineItem) (name : String)
    (price change : Int) (hinv : ∀ it ∈ cart, 1 ≤ it.quantity) :
    (∀ it ∈ addToCart cart name price, 1 ≤ it.quantity) ∧
    (∀ it ∈ updateQuantity cart name change, 1 ≤ it.quantity) ∧
    (∀ it ∈ removeFromCart cart name, 1 ≤ it.quantity) ∧
    (cart.any (fun ci => ci.name == name) = true →
      (addToCart cart name price).length = cart.length) ∧
    (∀ a, cart.find? (fun ci => ci.name == name) = some a →
      (addToCart cart name price).find? (fun ci => ci.name == name) =
        some { a with quantity := a.quantity + 1 }) := by
  refine ⟨?_, ?_, ?_, ?_, ?_⟩
  · intro it hit
    unfold addToCart at hit
    by_cases hany : cart.any (fun ci => ci.name == name) = true
    · rw [if_pos hany] at hit
      obtain ⟨ci, hci, rfl⟩ := List.mem_map.mp hit
      have h1 := hinv ci hci
      by_cases hn : ci.name = name
      · rw [if_pos (by simp [hn] : (ci.name == name) = true)]
        simp only []
        omega
      · rw [if_neg (by simp [hn] : ¬(ci.name == name) = true)]
        exact h1
    · rw [if_neg hany] at hit
      rcases List.mem_append.mp hit with hit | hit
      · exact hinv it hit
      · rcases List.mem_singleton.mp hit with rfl
        exact le_refl 1
  · intro it hit
    unfold updateQuantity at hit
    have h2 := of_decide_eq_true (List.mem_filter.mp hit).2
    omega
  · intro it hit
    exact hinv it (List.mem_filter.mp hit).1
  · intro hany
    unfold addToCart
    rw [if_pos hany]
    exact List.length_map _ _
  · intro a ha
    have hany : cart.any (fun ci => ci.name == name) = true := by
      rw [List.any_eq_true]
      have hmem := List.mem_of_find?_eq_some ha
      have hp := List.find?_some ha
      exact ⟨a, hmem, hp⟩
    unfold addToCart
    rw [if_pos hany]
    exact find?_map_bump cart name a ha

/-- Witness for C10: adding `"Fries"` to a cart already holding two
`"Fries"` bumps the entry to quantity 3 without appending. -/
theorem clientCart_ops_witness :
    (addToCart [⟨"Fries", 249, 2⟩] "Fries" 249).find?
        (fun ci => ci.name == "Fries") = some ⟨"Fries", 249, 2 + 1⟩ :=
  (clientCart_ops [⟨"Fries", 249, 2⟩] "Fries" 249 1 (by decide)).2.2.2.2
    ⟨"Fries", 249, 2⟩ (by decide)

end InnOut
